import Mathlib

/-!
Shallow embedding of the `up-to-actual` sync pipeline.

Each definition is translated from the JavaScript source:
- `getBackoffDelay`       from `backoff.js`
- `extractDate`, `transformTransaction`, `transformTransactions`
                          from `transform.js`
- `fetchTransactionsLoop` (the pagination/error loop of `fetchTransactions`)
                          from `upbank.js`
- `importTransactionsRun` from `actual.js` (`importTransactions`)
- `executeSyncAttempt`    from `sync.js`
- `retryLoop` / `mainRun` from `index.js` (`main`)
- `validateConfig` / `runProcess`
                          from `config.js` and the `index.js` entry point

JavaScript numbers are modelled as `Nat`/`Int` (all values involved stay far
below 2^53, where JS arithmetic is exact); JS `undefined`/`null` optionality
is `Option`; a thrown `Error` is the `.error` branch of `Except` carrying the
error's message string; truthiness tests on strings (`x || y`) are modelled
by the explicit empty-string check.  Wall-clock quantities (`durationMs`,
actual sleeping) are represented only as recorded data, never as real time.
-/

namespace UpToActual

/-- From `backoff.js`: `getBackoffDelay(attempt) = baseDelayMs * 3^attempt`
with `baseDelayMs = 5 * 60 * 1000`. -/
def getBackoffDelay (attempt : Nat) : Nat :=
  let baseDelayMs := 5 * 60 * 1000
  baseDelayMs * 3 ^ attempt

/-! ## Schema transformer (`transform.js`) -/

/-- The `attributes.amount` object of an Up Bank transaction.  `value` is the
decorated decimal string the transformer never reads. -/
structure UpAmount where
  currencyCode : String
  value : String
  valueInBaseUnits : Int
  deriving Repr, DecidableEq

/-- The `attributes` object of an Up Bank transaction resource (the fields the
transformer reads).  `message` is optional in the API. -/
structure UpAttributes where
  description : String
  amount : UpAmount
  createdAt : String
  message : Option String
  deriving Repr, DecidableEq

/-- An Up Bank transaction resource. -/
structure UpTransaction where
  id : String
  attributes : UpAttributes
  deriving Repr, DecidableEq

/-- A transaction in the shape expected by Actual Budget's
`importTransactions`. -/
structure DestinationTransaction where
  imported_id : String
  payee_name : String
  amount : Int
  date : String
  notes : Option String
  cleared : Bool
  deriving Repr, DecidableEq

/-- From `transform.js` `extractDate`: `isoDatetime.substring(0, 10)`, the
first 10 characters of the ISO 8601 string. -/
def extractDate (isoDatetime : String) : String :=
  ⟨isoDatetime.data.take 10⟩

/-- From `transform.js` `transformTransaction`.  `attributes.message || null`
is the JS truthiness coalescing: `undefined`, `null` and `""` all become
`null`. -/
def transformTransaction (upTransaction : UpTransaction) : DestinationTransaction :=
  { imported_id := upTransaction.id
    payee_name := upTransaction.attributes.description
    amount := upTransaction.attributes.amount.valueInBaseUnits
    date := extractDate upTransaction.attributes.createdAt
    notes :=
      match upTransaction.attributes.message with
      | some m => if m = "" then none else some m
      | none => none
    cleared := true }

/-- From `transform.js` `transformTransactions`: maps `transformTransaction`
over the batch (the summary logging is diagnostic only and returns nothing). -/
def transformTransactions (upTransactions : List UpTransaction) : List DestinationTransaction :=
  upTransactions.map transformTransaction

/-! ## Source client (`upbank.js` `fetchTransactions`) -/

/-- One HTTP response of the transactions endpoint, as consumed by the fetch
loop: the status code, the `data` array, the `links.next` cursor (`none` when
the provider signals no further pages) and the optional
`errors[0].detail` text of an error body. -/
structure UpResponse where
  status : Nat
  data : List UpTransaction
  next : Option String
  errorDetail : Option String
  deriving Repr, DecidableEq

/-- The JS `Response.ok` predicate: status in the range 200–299. -/
def isOkStatus (status : Nat) : Bool :=
  200 ≤ status && status < 300

/-- The exact message thrown by `upbank.js` on HTTP 429. -/
def rateLimitMessage : String :=
  "Up Bank API rate limited (HTTP 429). Will retry with backoff."

/-- The exact message thrown by `upbank.js` on any other non-success status:
`` `Up Bank API error: HTTP ${status} — ${body.errors?.[0]?.detail || 'Unknown error'}` ``
(JS `||` sends both a missing and an empty detail to the fallback). -/
def apiErrorMessage (status : Nat) (errorDetail : Option String) : String :=
  "Up Bank API error: HTTP " ++ toString status ++ " — " ++
    (match errorDetail with
     | some d => if d = "" then "Unknown error" else d
     | none => "Unknown error")

/-- The `while (url)` pagination loop of `fetchTransactions`, driven by the
sequence of responses the provider returns to successive requests.  Each
iteration issues one request; a non-success status throws (429 specially);
otherwise the page's `data` is appended and `links.next` decides whether the
loop continues.  Returns the accumulated transactions and the number of
requests made (`pageCount`).  An empty response list while a request is still
pending models the network call itself failing. -/
def fetchTransactionsLoop : List UpResponse → Except String (List UpTransaction × Nat)
  | [] => .error "fetch failed: no response"
  | r :: rest =>
    if isOkStatus r.status then
      match r.next with
      | none => .ok (r.data, 1)
      | some _ =>
        match fetchTransactionsLoop rest with
        | .ok (ts, pages) => .ok (r.data ++ ts, pages + 1)
        | .error e => .error e
    else
      if r.status = 429 then
        .error rateLimitMessage
      else
        .error (apiErrorMessage r.status r.errorDetail)

/-- A response sequence forming one complete, successful pagination chain:
every response is a success, every page but the last carries a `links.next`
cursor, and the last page's cursor is `null`. -/
def chainOk : List UpResponse → Bool
  | [] => false
  | r :: rest =>
    isOkStatus r.status &&
      (match rest with
       | [] => r.next.isNone
       | _ :: _ => r.next.isSome && chainOk rest)

/-- A response sequence that keeps a pagination in progress: every response is
a success and carries a `links.next` cursor. -/
def chainPrefixOk (rs : List UpResponse) : Bool :=
  rs.all (fun r => isOkStatus r.status && r.next.isSome)

/-- Contiguous-substring test on character lists, used to state that an error
message textually identifies rate limiting. -/
def containsChars (pat : List Char) : List Char → Bool
  | [] => pat.isEmpty
  | c :: rest => pat.isPrefixOf (c :: rest) || containsChars pat rest

/-! ## Destination client and sync attempt (`actual.js`, `sync.js`) -/

/-- The result object of Actual Budget's `importTransactions`. -/
structure ImportResult where
  errors : List String
  added : List String
  updated : List String
  deriving Repr, DecidableEq

/-- From `actual.js` `importTransactions`: an empty batch short-circuits to a
zeroed result without touching the API; otherwise the whole batch goes to the
destination API in one call (`api` models `api.importTransactions`, which may
throw). -/
def importTransactionsRun (api : List DestinationTransaction → Except String ImportResult)
    (transactions : List DestinationTransaction) : Except String ImportResult :=
  if transactions.length = 0 then
    .ok { errors := [], added := [], updated := [] }
  else
    api transactions

/-- The value returned by `executeSyncAttempt` on success (the wall-clock
`durationMs` field is real time and is not modelled). -/
structure SyncResult where
  result : ImportResult
  fetchedCount : Nat
  deriving Repr, DecidableEq

/-- A call into the destination client observable from `sync.js`:
`connect()`, `importTransactions(...)`, `disconnect()`. -/
inductive DestCall where
  | connect
  | importBatch
  | disconnect
  deriving Repr, DecidableEq

/-- The environment of one sync attempt: the outcome of the Up Bank ping, the
transactions the (already completed) fetch produced, the outcome of
`connect()`, and the destination import API.  `disconnect` (`api.shutdown`)
is modelled as succeeding teardown. -/
structure SyncEnv where
  pingResult : Except String Unit
  fetched : List UpTransaction
  connectResult : Except String Unit
  importApi : List DestinationTransaction → Except String ImportResult

/-- From `sync.js` `executeSyncAttempt`, returning the attempt outcome
together with the trace of destination-client calls made: ping, fetch, the
zero-fetch short-circuit, transform, then `connect` / `importTransactions`
inside a `try`/`finally` that always runs `disconnect`. -/
def executeSyncAttempt (env : SyncEnv) : Except String SyncResult × List DestCall :=
  match env.pingResult with
  | .error e => (.error e, [])
  | .ok _ =>
    if env.fetched.length = 0 then
      (.ok { result := { errors := [], added := [], updated := [] }, fetchedCount := 0 }, [])
    else
      let actualTransactions := transformTransactions env.fetched
      match env.connectResult with
      | .error e => (.error e, [.connect])
      | .ok _ =>
        match importTransactionsRun env.importApi actualTransactions with
        | .ok result =>
          (.ok { result := result, fetchedCount := env.fetched.length },
           [.connect, .importBatch, .disconnect])
        | .error e => (.error e, [.connect, .importBatch, .disconnect])

/-! ## Retry orchestrator (`index.js` `main`) -/

/-- A webhook notification sent by the orchestrator: `notifySuccess(result,
fetchedCount, ...)` or `notifyFailure(message, attempts)`. -/
inductive Notification where
  | success (result : ImportResult) (fetchedCount : Nat)
  | failure (message : String) (attempts : Nat)
  deriving Repr, DecidableEq

/-- The observable outcome of one run of `main()`: how many attempts were
executed, the sleep durations requested between attempts (in order), the
notifications sent, and the process exit code. -/
structure RunOutcome where
  attemptsMade : Nat
  sleeps : List Nat
  notifications : List Notification
  exitCode : Nat
  deriving Repr, DecidableEq

/-- The `for (let attempt = 1; attempt <= maxAttempts; attempt++)` loop of
`main()`, with the number of loop iterations still to run (`remaining =
maxAttempts + 1 - attempt`) as the structural recursion measure.  `results
attempt` is the outcome of `executeSyncAttempt()` on that attempt.  On
success: notify success and return (exit 0).  On failure: record the error
and, when this was not the last attempt (`attempt < maxAttempts`), sleep for
`getBackoffDelay(attempt - 1)`.  When the loop ends, notify failure with
`lastError?.message || 'Unknown error'` (JS `||`: a missing or empty message
falls back) and `maxAttempts`, then exit 1. -/
def retryLoop (results : Nat → Except String SyncResult) (maxAttempts : Nat) :
    Nat → Nat → Option String → RunOutcome
  | 0, _, lastError =>
    { attemptsMade := 0
      sleeps := []
      notifications :=
        [.failure
          (match lastError with
           | some m => if m = "" then "Unknown error" else m
           | none => "Unknown error")
          maxAttempts]
      exitCode := 1 }
  | remaining + 1, attempt, _ =>
    match results attempt with
    | .ok r =>
      { attemptsMade := 1
        sleeps := []
        notifications := [.success r.result r.fetchedCount]
        exitCode := 0 }
    | .error e =>
      let rest := retryLoop results maxAttempts remaining (attempt + 1) (some e)
      { attemptsMade := rest.attemptsMade + 1
        sleeps :=
          (if attempt < maxAttempts then [getBackoffDelay (attempt - 1)] else []) ++ rest.sleeps
        notifications := rest.notifications
        exitCode := rest.exitCode }

/-- `main()` of `index.js`: run the attempt loop from attempt 1 with no error
recorded yet; the loop body runs at most `maxAttempts` times. -/
def mainRun (results : Nat → Except String SyncResult) (maxAttempts : Nat) : RunOutcome :=
  retryLoop results maxAttempts maxAttempts 1 none

/-! ## Configuration validation (`config.js`, entry point of `index.js`) -/

/-- From `config.js`: the required environment variables. -/
def REQUIRED_VARS : List String :=
  ["UP_API_TOKEN", "ACTUAL_SERVER_URL", "ACTUAL_PASSWORD", "ACTUAL_SYNC_ID",
   "ACTUAL_ACCOUNT_ID"]

/-- The JS test `!process.env[key]`: true when the variable is unset or set to
the empty string (both are falsy). -/
def envBlank (value : Option String) : Bool :=
  match value with
  | none => true
  | some s => s = ""

/-- `REQUIRED_VARS.filter((key) => !process.env[key])` from `validateConfig`. -/
def missingVars (env : String → Option String) : List String :=
  REQUIRED_VARS.filter (fun key => envBlank (env key))

/-- From `config.js` `validateConfig`: when any required variable is missing,
report the full list of missing names and halt (`process.exit(1)`, modelled as
the `.error` branch); otherwise succeed. -/
def validateConfig (env : String → Option String) : Except (List String) Unit :=
  let missing := missingVars env
  if missing.length > 0 then .error missing else .ok ()

/-- The `index.js` entry point: `validateConfig()` runs before `main()`; a
validation failure halts the process before any attempt (hence before any
network call) runs, so no `RunOutcome` is produced. -/
def runProcess (env : String → Option String) (results : Nat → Except String SyncResult)
    (maxAttempts : Nat) : Except (List String) RunOutcome :=
  match validateConfig env with
  | .error missing => .error missing
  | .ok _ => .ok (mainRun results maxAttempts)

/-! ## Sample data used by concrete witnesses -/

/-- A well-formed source transaction whose optional `message` is present but
equal to the empty string. -/
def emptyMessageTx : UpTransaction :=
  { id := "txn-empty-msg"
    attributes :=
      { description := "Coffee"
        amount := { currencyCode := "AUD", value := "-4.50", valueInBaseUnits := -450 }
        createdAt := "2026-01-26T04:51:32+11:00"
        message := some "" } }

/-- A well-formed source transaction with a non-empty message and amount -1. -/
def sampleTxA : UpTransaction :=
  { id := "txn-a"
    attributes :=
      { description := "Grocer"
        amount := { currencyCode := "AUD", value := "-0.01", valueInBaseUnits := -1 }
        createdAt := "2025-12-31T23:00:00-05:00"
        message := some "weekly shop" } }

/-- A second well-formed source transaction with a distinct identifier. -/
def sampleTxB : UpTransaction :=
  { id := "txn-b"
    attributes :=
      { description := "Cafe"
        amount := { currencyCode := "AUD", value := "5.00", valueInBaseUnits := 500 }
        createdAt := "2026-01-26T04:51:32+11:00"
        message := none } }

/-- A transaction with a present-but-empty message, reserved for the C10
witness. -/
def blankNoteTx : UpTransaction :=
  { id := "txn-blank-note"
    attributes :=
      { description := "Fee"
        amount := { currencyCode := "AUD", value := "-1.00", valueInBaseUnits := -100 }
        createdAt := "2026-02-01T00:00:00+11:00"
        message := some "" } }

/-- A sync-attempt environment whose fetch produced zero transactions. -/
def emptyFetchEnv : SyncEnv :=
  { pingResult := .ok ()
    fetched := []
    connectResult := .ok ()
    importApi := fun _ => .ok { errors := [], added := [], updated := [] } }

/-- A transaction reserved for the import-failure scenario. -/
def importFailTx : UpTransaction :=
  { id := "txn-import-fail"
    attributes :=
      { description := "Hardware"
        amount := { currencyCode := "AUD", value := "-99.00", valueInBaseUnits := -9900 }
        createdAt := "2026-03-05T09:00:00+11:00"
        message := none } }

/-- A sync-attempt environment in which the destination import call throws. -/
def importFailEnv : SyncEnv :=
  { pingResult := .ok ()
    fetched := [importFailTx]
    connectResult := .ok ()
    importApi := fun _ => .error "PostError: network-failure" }

/-- Transaction on the first page of the two-page pagination scenario. -/
def pageTxA : UpTransaction :=
  { id := "txn-page-a"
    attributes :=
      { description := "Bakery"
        amount := { currencyCode := "AUD", value := "-6.50", valueInBaseUnits := -650 }
        createdAt := "2026-01-25T08:00:00+11:00"
        message := none } }

/-- Transaction on the second page of the two-page pagination scenario. -/
def pageTxB : UpTransaction :=
  { id := "txn-page-b"
    attributes :=
      { description := "Chemist"
        amount := { currencyCode := "AUD", value := "-12.00", valueInBaseUnits := -1200 }
        createdAt := "2026-01-25T09:00:00+11:00"
        message := none } }

/-- Page 1 of the pagination scenario: data `[pageTxA]`, with a next-link. -/
def pageOne : UpResponse :=
  { status := 200
    data := [pageTxA]
    next := some "https://api.up.com.au/api/v1/transactions?page%5Bafter%5D=abc"
    errorDetail := none }

/-- Page 2 of the pagination scenario: data `[pageTxB]`, no next-link. -/
def pageTwo : UpResponse :=
  { status := 200
    data := [pageTxB]
    next := none
    errorDetail := none }

/-- A successful page with a pending next-link, preceding an error response. -/
def okPageBeforeError : UpResponse :=
  { status := 200
    data := [ { id := "txn-page-ok"
                attributes :=
                  { description := "Fuel"
                    amount := { currencyCode := "AUD", value := "-40.00", valueInBaseUnits := -4000 }
                    createdAt := "2026-01-24T10:00:00+11:00"
                    message := none } } ]
    next := some "https://api.up.com.au/api/v1/transactions?page%5Bafter%5D=def"
    errorDetail := none }

/-- An HTTP 429 response from the provider. -/
def rateLimitedResponse : UpResponse :=
  { status := 429, data := [], next := none, errorDetail := some "Too many requests" }

/-- An HTTP 500 response from the provider with a detail text. -/
def serverErrorResponse : UpResponse :=
  { status := 500, data := [], next := none, errorDetail := some "Internal server error" }

/-- An environment with two of the five required variables missing (one
unset, one set to the empty string). -/
def twoMissingEnv : String → Option String :=
  fun key =>
    if key = "UP_API_TOKEN" then none
    else if key = "ACTUAL_PASSWORD" then some ""
    else some "configured"

/-! ## C1 — backoff delay -/

/-- C1: for every attempt index `i ≥ 0` the backoff delay is the pure function
`300000 * 3 ^ i` (base delay 300000 ms, multiplier 3, no clamp); concretely
`delay 0 = 300000`, `delay 1 = 900000`, `delay 2 = 2700000`. -/
theorem backoff_delay_formula :
    ∀ i : Nat,
      getBackoffDelay i = 300000 * 3 ^ i
      ∧ getBackoffDelay 0 = 300000
      ∧ getBackoffDelay 1 = 900000
      ∧ getBackoffDelay 2 = 2700000 := by
  intro i
  refine ⟨rfl, by decide, by decide, by decide⟩

/-! ## C3 — date extraction -/

/-- C3: the transformer's date extraction returns exactly the first 10
characters of the ISO timestamp string (the date in the source's own reported
offset, never a timezone-normalized recomputation); in particular
`"2026-01-26T04:51:32+11:00" ↦ "2026-01-26"` and
`"2025-12-31T23:00:00-05:00" ↦ "2025-12-31"`. -/
theorem extract_date_first_ten :
    ∀ (d rest : String),
      (d.data.length = 10 → extractDate (d ++ rest) = d)
      ∧ extractDate "2026-01-26T04:51:32+11:00" = "2026-01-26"
      ∧ extractDate "2025-12-31T23:00:00-05:00" = "2025-12-31" := by
  intro d rest
  refine ⟨fun h => ?_, by decide, by decide⟩
  show String.mk ((d ++ rest).data.take 10) = d
  rw [String.data_append, ← h, List.take_left]

/-- Witness for C3 at the spec's own example: a date prefix of length 10
followed by the time-and-offset tail. -/
theorem extract_date_first_ten_witness :
    extractDate ("2026-01-26" ++ "T04:51:32+11:00") = "2026-01-26" :=
  (extract_date_first_ten "2026-01-26" "T04:51:32+11:00").1 (by decide)

/-! ## C2 — field mapping of the transformer -/

/-- C2 counterexample: a well-formed source transaction whose `message` is
present (equal to `""`) but whose transformed `notes` is `none`, not the
source message — refuting "notes is set to the source message when present"
as stated. -/
theorem transform_notes_counterexample :
    emptyMessageTx.attributes.message = some ""
    ∧ (transformTransaction emptyMessageTx).notes = none
    ∧ (transformTransaction emptyMessageTx).notes ≠ emptyMessageTx.attributes.message := by
  refine ⟨rfl, rfl, by decide⟩

/-- C2 (amended): `transformOne` copies the source identifier verbatim into
`imported_id` (so distinct identifiers yield distinct `imported_id`s), copies
the signed integer minor-unit amount exactly (for `-1` in, exactly `-1` out),
sets `cleared` to `true`, and sets `notes` to the source message when it is
present and non-empty, and to `null` when it is absent or empty. -/
theorem transform_fields_amended :
    ∀ t t₁ t₂ : UpTransaction,
      (transformTransaction t).imported_id = t.id
      ∧ (t₁.id ≠ t₂.id →
          (transformTransaction t₁).imported_id ≠ (transformTransaction t₂).imported_id)
      ∧ (transformTransaction t).amount = t.attributes.amount.valueInBaseUnits
      ∧ (t.attributes.amount.valueInBaseUnits = -1 → (transformTransaction t).amount = -1)
      ∧ (transformTransaction t).cleared = true
      ∧ (∀ m, t.attributes.message = some m → m ≠ "" →
          (transformTransaction t).notes = some m)
      ∧ ((t.attributes.message = none ∨ t.attributes.message = some "") →
          (transformTransaction t).notes = none) := by
  intro t t₁ t₂
  refine ⟨rfl, fun h => h, rfl, fun h => h, rfl, ?_, ?_⟩
  · intro m hm hne
    simp [transformTransaction, hm, hne]
  · rintro (hm | hm) <;> simp [transformTransaction, hm]

/-- Witness for C2 (amended) at concrete transactions: `sampleTxA` (amount
`-1`, non-empty message) against `sampleTxB` (distinct id, absent message). -/
theorem transform_fields_amended_witness :
    (transformTransaction sampleTxA).imported_id = sampleTxA.id
    ∧ (transformTransaction sampleTxA).imported_id ≠ (transformTransaction sampleTxB).imported_id
    ∧ (transformTransaction sampleTxA).amount = -1
    ∧ (transformTransaction sampleTxA).cleared = true
    ∧ (transformTransaction sampleTxA).notes = some "weekly shop"
    ∧ (transformTransaction sampleTxB).notes = none := by
  obtain ⟨h1, h2, _, h4, h5, h6, _⟩ := transform_fields_amended sampleTxA sampleTxA sampleTxB
  obtain ⟨_, _, _, _, _, _, h7⟩ := transform_fields_amended sampleTxB sampleTxA sampleTxB
  exact ⟨h1, h2 (by decide), h4 (by decide), h5,
    h6 "weekly shop" rfl (by decide), h7 (Or.inl rfl)⟩

/-! ## C10 — empty message yields null notes -/

/-- C10: when the source `message` is present but empty, the transformed
`notes` is `null` — the same as when the message is absent; `notes` is always
either a non-empty string or `null`, never the empty string. -/
theorem transform_notes_empty_is_null :
    ∀ t : UpTransaction,
      (t.attributes.message = some "" → (transformTransaction t).notes = none)
      ∧ ((transformTransaction t).notes = none
          ∨ ∃ m, (transformTransaction t).notes = some m ∧ m ≠ "")
      ∧ (transformTransaction t).notes ≠ some "" := by
  intro t
  refine ⟨fun h => by simp [transformTransaction, h], ?_, ?_⟩
  · rcases hm : t.attributes.message with _ | m
    · exact Or.inl (by simp [transformTransaction, hm])
    · by_cases he : m = ""
      · exact Or.inl (by simp [transformTransaction, hm, he])
      · exact Or.inr ⟨m, by simp [transformTransaction, hm, he], he⟩
  · rcases hm : t.attributes.message with _ | m
    · simp [transformTransaction, hm]
    · by_cases he : m = "" <;> simp [transformTransaction, hm, he]

/-- Witness for C10 at a concrete transaction whose message is `some ""`. -/
theorem transform_notes_empty_is_null_witness :
    (transformTransaction blankNoteTx).notes = none :=
  (transform_notes_empty_is_null blankNoteTx).1 rfl

/-! ## C4 — empty fetch short-circuits -/

/-- C4: when the source fetch returns zero records, `executeSyncAttempt`
returns the zeroed result with `fetchedCount = 0`, and the destination
client's `connect`, `importTransactions` and `disconnect` are never invoked
during that attempt. -/
theorem empty_fetch_short_circuit :
    ∀ env : SyncEnv, env.pingResult = .ok () → env.fetched = [] →
      executeSyncAttempt env =
        (.ok { result := { errors := [], added := [], updated := [] }, fetchedCount := 0 }, [])
      ∧ DestCall.connect ∉ (executeSyncAttempt env).2
      ∧ DestCall.importBatch ∉ (executeSyncAttempt env).2
      ∧ DestCall.disconnect ∉ (executeSyncAttempt env).2 := by
  intro env hping hfetch
  have h : executeSyncAttempt env =
      (.ok { result := { errors := [], added := [], updated := [] }, fetchedCount := 0 }, []) := by
    simp [executeSyncAttempt, hping, hfetch]
  refine ⟨h, ?_, ?_, ?_⟩ <;> rw [h] <;> simp

/-- Witness for C4 at a concrete environment with an empty fetch. -/
theorem empty_fetch_short_circuit_witness :
    executeSyncAttempt emptyFetchEnv =
      (.ok { result := { errors := [], added := [], updated := [] }, fetchedCount := 0 }, []) :=
  (empty_fetch_short_circuit emptyFetchEnv rfl rfl).1

/-! ## C5 — disconnect on import failure -/

/-- C5: in an attempt that reaches the import step, if the import call throws
then `disconnect` is still invoked exactly once before the exception
propagates unmodified; the trace of destination calls is exactly
`connect`, `importTransactions`, `disconnect`. -/
theorem import_failure_still_disconnects :
    ∀ (env : SyncEnv) (e : String),
      env.pingResult = .ok () → env.fetched ≠ [] → env.connectResult = .ok () →
      env.importApi (transformTransactions env.fetched) = .error e →
      (executeSyncAttempt env).1 = .error e
      ∧ (executeSyncAttempt env).2 = [.connect, .importBatch, .disconnect]
      ∧ (executeSyncAttempt env).2.count .disconnect = 1 := by
  intro env e hping hfetch hconn himp
  have hlen : ¬env.fetched.length = 0 := by
    simpa [List.length_eq_zero] using hfetch
  have hlen2 : ¬(transformTransactions env.fetched).length = 0 := by
    simpa [transformTransactions] using hlen
  have h : executeSyncAttempt env = (.error e, [.connect, .importBatch, .disconnect]) := by
    simp [executeSyncAttempt, hping, hconn, hlen, importTransactionsRun, hlen2, himp]
  refine ⟨by rw [h], by rw [h], by rw [h]; rfl⟩

/-- Witness for C5 at a concrete environment whose import call throws. -/
theorem import_failure_still_disconnects_witness :
    (executeSyncAttempt importFailEnv).1 = .error "PostError: network-failure"
    ∧ (executeSyncAttempt importFailEnv).2 = [.connect, .importBatch, .disconnect]
    ∧ (executeSyncAttempt importFailEnv).2.count .disconnect = 1 :=
  import_failure_still_disconnects importFailEnv "PostError: network-failure"
    rfl (by decide) rfl rfl

/-! ## C6 — retry exhaustion -/

/-- C6 counterexample: with `maxAttempts = 4` and every attempt failing with
an error whose message is the empty string, the single failure notification
carries the fallback text `"Unknown error"` (because of the JS
`lastError?.message || 'Unknown error'` coalescing), not the last error's
message `""` — so the notification does not always carry the last error's
message as the claim states.  Attempt count and sleep schedule are as
claimed. -/
theorem retry_exhaustion_counterexample :
    mainRun (fun _ => .error "") 4 =
      { attemptsMade := 4
        sleeps := [300000, 900000, 2700000]
        notifications := [.failure "Unknown error" 4]
        exitCode := 1 }
    ∧ (mainRun (fun _ => .error "") 4).notifications ≠ [.failure "" 4] := by
  refine ⟨by decide, by decide⟩

/-- C6 (amended): with `maxAttempts = 4` and every attempt failing, the
orchestrator performs exactly 4 attempts, sleeps exactly 3 times — after
attempts 1–3, for `getBackoffDelay (attempt - 1)`, i.e. 300000 ms, 900000 ms,
2700000 ms, never after attempt 4 — and emits exactly one failure
notification carrying the last error's message when that message is
non-empty (and the fallback text `"Unknown error"` when it is empty) together
with the total attempt count 4, then exits non-zero. -/
theorem retry_exhaustion_amended :
    ∀ (results : Nat → Except String SyncResult) (msg : Nat → String),
      (∀ i, results i = .error (msg i)) →
      mainRun results 4 =
        { attemptsMade := 4
          sleeps := [getBackoffDelay 0, getBackoffDelay 1, getBackoffDelay 2]
          notifications := [.failure (if msg 4 = "" then "Unknown error" else msg 4) 4]
          exitCode := 1 }
      ∧ [getBackoffDelay 0, getBackoffDelay 1, getBackoffDelay 2] =
          [300000, 900000, 2700000] := by
  intro results msg h
  refine ⟨?_, by decide⟩
  simp [mainRun, retryLoop, h 1, h 2, h 3, h 4]

/-- Witness for C6 (amended): every attempt fails with message `"boom"`. -/
theorem retry_exhaustion_amended_witness :
    mainRun (fun _ => .error "boom") 4 =
      { attemptsMade := 4
        sleeps := [getBackoffDelay 0, getBackoffDelay 1, getBackoffDelay 2]
        notifications := [.failure "boom" 4]
        exitCode := 1 } := by
  have h :=
    (retry_exhaustion_amended (fun _ => .error "boom") (fun _ => "boom") (fun _ => rfl)).1
  simpa using h

/-! ## C7 — pagination concatenation -/

/-- C7: for every complete pagination chain, the fetch loop follows the
`links.next` cursor of each response until it is `null` and returns the
concatenation of the pages' `data` arrays in response order, after exactly
one HTTP request per page. -/
theorem fetch_pagination :
    ∀ rs : List UpResponse, chainOk rs = true →
      fetchTransactionsLoop rs = .ok ((rs.map (fun r => r.data)).flatten, rs.length) := by
  intro rs
  induction rs with
  | nil => intro h; simp [chainOk] at h
  | cons r rest ih =>
    intro h
    match rest with
    | [] =>
      simp only [chainOk, Bool.and_eq_true] at h
      obtain ⟨hok, hnone⟩ := h
      rw [Option.isNone_iff_eq_none] at hnone
      simp [fetchTransactionsLoop, hok, hnone]
    | r' :: rest' =>
      simp only [chainOk, Bool.and_eq_true] at h
      obtain ⟨hok, hsome, hchain⟩ := h
      obtain ⟨u, hu⟩ := Option.isSome_iff_exists.1 hsome
      have hrec := ih (by simpa [chainOk] using hchain)
      conv_lhs => rw [fetchTransactionsLoop]
      simp only [hok, hu, hrec, if_true]
      simp

/-- Witness for C7 at the spec's scenario: page 1 = `[pageTxA]` with a
next-link, page 2 = `[pageTxB]` with no next-link; the loop returns
`[pageTxA, pageTxB]` in order after exactly two requests. -/
theorem fetch_pagination_witness :
    chainOk [pageOne, pageTwo] = true
    ∧ fetchTransactionsLoop [pageOne, pageTwo] = .ok ([pageTxA, pageTxB], 2) := by
  refine ⟨by decide, ?_⟩
  have h := fetch_pagination [pageOne, pageTwo] (by decide)
  simpa [pageOne, pageTwo] using h

/-! ## C8 — rate-limit vs generic source-API errors -/

/-- The generic source-API error message never coincides with the rate-limit
message, whatever the status and detail: the two differ at character 12
(`'e'` of "error" vs `'r'` of "rate"). -/
theorem apiErrorMessage_ne_rateLimitMessage :
    ∀ (s : Nat) (d : Option String), apiErrorMessage s d ≠ rateLimitMessage := by
  intro s d h
  have h1 : (apiErrorMessage s d).data[12]? = some 'r' := by
    rw [h]; decide
  have h2 : (apiErrorMessage s d).data[12]? = some 'e' := by
    show (("Up Bank API error: HTTP " ++ toString s ++ " — " ++ _ : String)).data[12]? = some 'e'
    rw [String.data_append, String.data_append, String.data_append,
      List.append_assoc, List.append_assoc,
      List.getElem?_append_left (by decide : 12 < ("Up Bank API error: HTTP ").data.length)]
    decide
  rw [h1] at h2
  exact absurd h2 (by decide)

/-- C8: a non-success response received while paginating makes the fetch fail;
HTTP 429 fails with the distinct rate-limit error, whose message textually
identifies rate limiting and is never equal to a generic source-API message;
any other non-success status fails with the generic source-API error carrying
the HTTP status code and the provider-supplied detail text when available. -/
theorem fetch_error_statuses :
    ∀ (okPages : List UpResponse) (r : UpResponse) (rest : List UpResponse),
      chainPrefixOk okPages = true → isOkStatus r.status = false →
      (r.status = 429 →
        fetchTransactionsLoop (okPages ++ r :: rest) = .error rateLimitMessage)
      ∧ (r.status ≠ 429 →
        fetchTransactionsLoop (okPages ++ r :: rest) =
          .error (apiErrorMessage r.status r.errorDetail))
      ∧ containsChars "rate limited".data rateLimitMessage.data = true
      ∧ (∀ s d, apiErrorMessage s d ≠ rateLimitMessage) := by
  intro okPages r rest hpre hbad
  have hloop : fetchTransactionsLoop (okPages ++ r :: rest) =
      .error (if r.status = 429 then rateLimitMessage
              else apiErrorMessage r.status r.errorDetail) := by
    induction okPages with
    | nil =>
      simp only [List.nil_append]
      rw [fetchTransactionsLoop]
      simp only [hbad, Bool.false_eq_true, if_false]
      by_cases h429 : r.status = 429 <;> simp [h429]
    | cons p ps ih =>
      simp only [chainPrefixOk, List.all_cons, Bool.and_eq_true] at hpre
      obtain ⟨⟨hok, hsome⟩, hrest⟩ := hpre
      obtain ⟨u, hu⟩ := Option.isSome_iff_exists.1 hsome
      have hrec := ih hrest
      simp only [List.cons_append]
      conv_lhs => rw [fetchTransactionsLoop]
      simp only [hok, hu, hrec, if_true]
  refine ⟨fun h429 => ?_, fun hnot => ?_, by decide, apiErrorMessage_ne_rateLimitMessage⟩
  · rw [hloop, if_pos h429]
  · rw [hloop, if_neg hnot]

/-- Witness for C8: after one successful page, a 429 response fails with the
rate-limit message, and a 500 response fails with the generic message
carrying the status and detail. -/
theorem fetch_error_statuses_witness :
    fetchTransactionsLoop [okPageBeforeError, rateLimitedResponse] = .error rateLimitMessage
    ∧ fetchTransactionsLoop [okPageBeforeError, serverErrorResponse] =
        .error (apiErrorMessage 500 (some "Internal server error")) := by
  refine ⟨?_, ?_⟩
  · exact (fetch_error_statuses [okPageBeforeError] rateLimitedResponse []
      (by decide) (by decide)).1 rfl
  · have h := (fetch_error_statuses [okPageBeforeError] serverErrorResponse []
      (by decide) (by decide)).2.1 (by decide)
    simpa [serverErrorResponse] using h

/-! ## C9 — configuration validation -/

/-- C9: whenever at least one required configuration value is missing (unset
or empty), the process halts at validation before any attempt — hence before
any network call — can run, and the one reported error enumerates exactly
the missing required values, never a partial subset. -/
theorem config_validation_enumerates_missing :
    ∀ (env : String → Option String) (results : Nat → Except String SyncResult)
      (maxAttempts : Nat),
      (∃ key ∈ REQUIRED_VARS, envBlank (env key) = true) →
      runProcess env results maxAttempts = .error (missingVars env)
      ∧ (∀ key ∈ REQUIRED_VARS, envBlank (env key) = true → key ∈ missingVars env)
      ∧ (∀ key ∈ missingVars env, key ∈ REQUIRED_VARS ∧ envBlank (env key) = true) := by
  intro env results maxAttempts h
  obtain ⟨k, hk, hblank⟩ := h
  have hmem : k ∈ missingVars env := List.mem_filter.2 ⟨hk, hblank⟩
  have hpos : 0 < (missingVars env).length := List.length_pos.2 (List.ne_nil_of_mem hmem)
  refine ⟨?_, ?_, ?_⟩
  · simp [runProcess, validateConfig, hpos]
  · intro key hkey hb
    exact List.mem_filter.2 ⟨hkey, hb⟩
  · intro key hkey
    exact List.mem_filter.1 hkey

/-- Witness for C9: with `UP_API_TOKEN` unset and `ACTUAL_PASSWORD` empty,
the reported error lists exactly those two variables. -/
theorem config_validation_enumerates_missing_witness :
    runProcess twoMissingEnv (fun _ => .error "unused") 4 =
      .error ["UP_API_TOKEN", "ACTUAL_PASSWORD"] := by
  have h := (config_validation_enumerates_missing twoMissingEnv (fun _ => .error "unused") 4
    ⟨"UP_API_TOKEN", by decide, by decide⟩).1
  rw [h]
  rfl

end UpToActual
